import Mathlib

/-!
Verification of the bottle-swagger plugin (`src/bottle_swagger/__init__.py`)
against its natural-language specification.

The development shallowly embeds the plugin's logic:
* Python JSON-compatible values become the inductive type `PyVal`;
* Python dicts become association lists (`Dict`) with Python-update semantics;
* the path-pattern translation in `SwaggerPlugin._swagger_op` (a call to
  `re.sub` with the fixed pattern `/<(.+?)(:.+)?>`) becomes an executable
  matcher with Python's lazy/greedy backtracking semantics for that pattern;
* the per-request routine `SwaggerPlugin._swagger_validate` becomes a pure
  function from a plugin configuration, a set of external-library oracles and
  an initial Bottle response state to a trace of events, a final response
  state, and either a returned value or a propagated exception;
* `SwaggerPlugin.__init__` and `SwaggerPlugin.setup` become pure functions,
  with `bravado_core.spec.Spec.from_dict` as an oracle parameter.

External collaborators (Bottle request/response plumbing, bravado-core
unmarshalling and validation, `urljoin`) are modelled either as oracle
parameters or, where the plugin depends on their concrete behaviour on the
restricted inputs it uses, as small executable models documented inline.
-/

namespace BottleSwagger

/-- Python JSON-compatible values, as passed around by the plugin. -/
inductive PyVal where
  | none : PyVal
  | bool : Bool → PyVal
  | int : Int → PyVal
  | str : String → PyVal
  | list : List PyVal → PyVal
  | dict : List (String × PyVal) → PyVal

/-- A Python dict with string keys, as an association list in insertion order. -/
abbrev Dict := List (String × PyVal)

/-- Python `d[k] = v` / `d.update(k=v)`: replace the value at the first
occurrence of `k`, keeping its position, else append at the end. -/
def dictUpdate : Dict → String → PyVal → Dict
  | [], k, v => [(k, v)]
  | (k1, v1) :: rest, k, v =>
    if k1 = k then (k, v) :: rest else (k1, v1) :: dictUpdate rest k v

/-- Python `k in d`. -/
def dictContains (d : Dict) (k : String) : Bool :=
  d.any (fun kv => kv.1 = k)

/-- Python `d.get(k)`. -/
def dictGet? : Dict → String → Option PyVal
  | [], _ => Option.none
  | (k1, v1) :: rest, k => if k1 = k then some v1 else dictGet? rest k

/-! ### Path-pattern translation

`SwaggerPlugin._swagger_op` (line 338) runs
`re.sub(r'/<(.+?)(:.+)?>', r'/{\1}', route.rule)`.
The following is an executable model of Python's regex engine specialised to
this one pattern: `(.+?)` is lazy (shortest first), `(:.+)?` is a greedy
optional group whose inner `.+` is greedy (longest first), `.` matches any
character except a newline, and `re.sub` rewrites the leftmost match then
continues scanning after it. -/

/-- The `.` metacharacter: any character except newline. -/
def reDot (c : Char) : Bool := c ≠ '\n'

/-- Length of the maximal prefix of `cs` made of `.`-matching characters. -/
def dotPrefixLen : List Char → Nat
  | [] => 0
  | c :: cs => if reDot c then dotPrefixLen cs + 1 else 0

/-- Greedy `.+` followed by the literal `>`: the largest `n` with
`1 ≤ n ≤ bound` such that the character at index `n` of `cs` is `>`
(the first `n` characters are `.`-matching by choice of `bound`). -/
def greedyDotsThenGt (cs : List Char) : Nat → Option Nat
  | 0 => Option.none
  | n + 1 =>
    if (cs.drop (n + 1)).head? = some '>' then some (n + 1)
    else greedyDotsThenGt cs n

/-- Try the pattern tail `(:.+)?>` against `rest.drop len1`, with group 1
being `rest.take len1`.  The optional group is tried first (greedily), then
the empty alternative. Returns the group-1 text and the remainder after the
whole match. -/
def tryTail (rest : List Char) (len1 : Nat) : Option (List Char × List Char) :=
  match rest.drop len1 with
  | ':' :: rem2 =>
    match greedyDotsThenGt rem2 (dotPrefixLen rem2) with
    | some len2 => some (rest.take len1, rem2.drop (len2 + 1))
    | Option.none => Option.none
  | '>' :: rem2 => some (rest.take len1, rem2)
  | _ => Option.none

/-- Lazy `(.+?)`: try group-1 lengths `len1, len1+1, …` (shortest first),
bounded by the `.`-matching prefix of `rest`; `fuel` bounds the search. -/
def lazyGroup1 (rest : List Char) : Nat → Nat → Option (List Char × List Char)
  | _, 0 => Option.none
  | len1, fuel + 1 =>
    if len1 ≤ dotPrefixLen rest then
      match tryTail rest len1 with
      | some r => some r
      | Option.none => lazyGroup1 rest (len1 + 1) fuel
    else Option.none

/-- Try to match the whole pattern `/<(.+?)(:.+)?>` at the head of `cs`. -/
def tryMatch : List Char → Option (List Char × List Char)
  | '/' :: '<' :: rest => lazyGroup1 rest 1 (dotPrefixLen rest)
  | _ => Option.none

/-- The `re.sub` scan: at each position try the pattern; on a match emit the
replacement `/\x7bgroup1\x7d` and continue after the match, else keep the
character and move on. `fuel` bounds the recursion (the input length suffices,
as every step consumes at least one character). -/
def subScan : Nat → List Char → List Char
  | 0, cs => cs
  | _ + 1, [] => []
  | fuel + 1, c :: cs =>
    match tryMatch (c :: cs) with
    | some (g1, after) => '/' :: '\x7b' :: (g1 ++ '\x7d' :: subScan fuel after)
    | Option.none => c :: subScan fuel cs

/-- Embedding of the path translation in `SwaggerPlugin._swagger_op`
(src/bottle_swagger/__init__.py line 338): convert Bottle `<param>` /
`<param:type>` route-rule placeholders to Swagger `\x7bparam\x7d` style. -/
def swaggerOpPath (rule : String) : String :=
  String.mk (subScan rule.data.length rule.data)

/-! ### Strings, URLs -/

/-- Python `s.startswith(pre)`. -/
def strStartsWith (s pre : String) : Bool :=
  pre.data.isPrefixOf s.data

/-- Python `s.lstrip(c)` for a single-character strip set. -/
def lstripChar (c : Char) (s : String) : String :=
  String.mk (s.data.dropWhile (fun x => x = c))

/-- Python `s.rstrip(c)` for a single-character strip set. -/
def rstripChar (c : Char) (s : String) : String :=
  String.mk ((s.data.reverse.dropWhile (fun x => x = c)).reverse)

/-- Python `s.strip(c)` for a single-character strip set. -/
def stripChar (c : Char) (s : String) : String :=
  lstripChar c (rstripChar c s)

/-- Everything up to and including the last `/` of the list (empty if none). -/
def upToLastSlash : List Char → List Char
  | [] => []
  | c :: rest =>
    if '/' ∈ rest then c :: upToLastSlash rest
    else if c = '/' then ['/'] else []

/-- Model of `six.moves.urllib.parse.urljoin` restricted to the scheme-less,
query-less, path-only inputs the plugin feeds it: a relative reference
starting with `/` replaces the whole path, otherwise it replaces everything
after the last `/` of the base. -/
def urljoinPath (base rel : String) : String :=
  if strStartsWith rel "/" then rel
  else String.mk (upToLastSlash base.data) ++ rel

/-! ### Exceptions, response state, events -/

/-- The Python exceptions relevant to the plugin (all subclasses of
`Exception`): jsonschema `ValidationError`, bravado-core
`MatchingResponseNotFound`, Bottle `HTTPResponse` (used for redirects and
early responses), `AttributeError`, and any other `Exception`. -/
inductive Exc where
  | validationError : String → Exc
  | matchingResponseNotFound : String → Exc
  | httpResponse : Nat → String → Exc
  | attributeError : String → Exc
  | other : String → Exc
deriving DecidableEq, Repr

/-- Python `str(e)` on a modelled exception. -/
def excStr : Exc → String
  | .validationError m => m
  | .matchingResponseNotFound m => m
  | .httpResponse _ m => m
  | .attributeError m => m
  | .other m => m

/-- The mutable state of Bottle's thread-local `response` object, together
with an abstract log of side effects committed by the downstream handler
(e.g. database writes), used to express that response validation cannot undo
them. A fresh Bottle response has status 200 and no content type set. -/
structure St where
  status : Nat := 200
  contentType : String := ""
  sideEffects : List String := []
deriving DecidableEq, Repr

/-- A fresh per-request response state. -/
def St0 : St := {}

/-- A Bottle route as the plugin sees it: its declared rule string. -/
structure Route where
  rule : String
deriving DecidableEq, Repr

/-- Model of Python `str(route)` for a `bottle.Route` (used only as the
message text fed to the not-found handler). -/
def routeStr (r : Route) : String := r.rule

/-- Observable events of one run of `_swagger_validate`, in order: the schema
lookup, attaching data to the request, running the external validators, the
downstream callback, serialization, and each of the four error handlers. -/
inductive Ev where
  | lookupOp : String → String → Ev
  | setSwaggerOp : Ev
  | unmarshalReq : Ev
  | setSwaggerData : Ev
  | callbackRun : Ev
  | respValidated : Ev
  | serialized : Ev
  | ranInvalidRequestHandler : Ev
  | ranInvalidResponseHandler : Ev
  | ranNotFoundHandler : Ev
  | ranExceptionHandler : Ev
deriving DecidableEq, Repr

/-! ### Default error handlers (lines 28-87 of the source) -/

/-- `_error_response(status, e)`: set `response.status` and return the
payload `\x7b"code": status, "message": str(e)\x7d`. -/
def errorResponse (status : Nat) (msg : String) (st : St) : St × PyVal :=
  ({ st with status := status },
   PyVal.dict [("code", PyVal.int (Int.ofNat status)), ("message", PyVal.str msg)])

/-- `default_server_error_handler`. -/
def default_server_error_handler (e : Exc) (st : St) : St × PyVal :=
  errorResponse 500 (excStr e) st

/-- `default_bad_request_handler`. -/
def default_bad_request_handler (e : Exc) (st : St) : St × PyVal :=
  errorResponse 400 (excStr e) st

/-- `default_not_found_handler`. -/
def default_not_found_handler (r : Route) (st : St) : St × PyVal :=
  errorResponse 404 (routeStr r) st

/-- The four overridable handlers stored on the plugin; the defaults are the
constructor defaults of `SwaggerPlugin.__init__`. Handlers are modelled as
total functions on the response state. -/
structure Handlers where
  invalidRequestHandler : Exc → St → St × PyVal := default_bad_request_handler
  invalidResponseHandler : Exc → St → St × PyVal := default_server_error_handler
  swaggerOpNotFoundHandler : Route → St → St × PyVal := default_not_found_handler
  exceptionHandler : Exc → St → St × PyVal := default_server_error_handler

/-! ### Plugin configuration (the data stored by `__init__`) -/

/-- The configuration data a successfully constructed `SwaggerPlugin` holds
(function-valued handler options live in `Handlers`). `validateRequests` and
`validateResponses` mirror the entries `__init__` writes into
`bravado_config`; the per-request routine never reads them itself — they are
consumed inside bravado-core. -/
structure Plugin where
  ignoreUndefinedRoutes : Bool
  autoJsonify : Bool
  serveSwaggerSchema : Bool
  serveSwaggerUi : Bool
  swaggerSchemaSuburl : String
  swaggerUiSuburl : String
  swaggerBasePath : String
  adjustApiBasePath : Bool
  swaggerSchemaUrl : String
  swaggerUiBaseUrl : String
  specDict : Dict
  validateSwaggerSpec : Bool
  validateRequests : Bool
  validateResponses : Bool

/-- The external collaborators of one request: the request method, the
bravado-core schema lookup (`Spec.get_op_for_request`, an operation is an
opaque token), bravado-core request unmarshalling (`unmarshal_request`),
bravado-core response validation (`get_response_spec` on the current status
code followed by `validate_response`), and the downstream route callback,
which may mutate the response state or raise. -/
structure ReqEnv where
  method : String
  lookupOp : String → String → Option Nat
  unmarshalRequest : Nat → Except Exc PyVal
  validateResponse : Nat → Nat → PyVal → Except Exc Unit
  callback : St → Except Exc (St × PyVal)

/-- The Python `isinstance(result, (dict, list))` test on line 314. -/
def isStructured : PyVal → Bool
  | .dict _ => true
  | .list _ => true
  | _ => false

/-- Model of `bottle.json_dumps` on `PyVal` (string escaping elided: the
modelled strings contain no characters needing escapes). -/
def jsonDumps : PyVal → String
  | .none => "null"
  | .bool b => if b then "true" else "false"
  | .int n => toString n
  | .str s => "\"" ++ s ++ "\""
  | .list l => "[" ++ String.intercalate ", " (l.attach.map (fun x => jsonDumps x.1)) ++ "]"
  | .dict d => "\x7b" ++
      String.intercalate ", "
        (d.attach.map (fun kv => "\"" ++ kv.1.1 ++ "\": " ++ jsonDumps kv.1.2)) ++ "\x7d"
decreasing_by
  · have h1 := List.sizeOf_lt_of_mem x.2
    simp only [PyVal.list.sizeOf_spec]
    omega
  · have h1 := List.sizeOf_lt_of_mem kv.2
    have h2 : sizeOf kv.1.2 < sizeOf kv.1 := by
      obtain ⟨a, b⟩ := kv.1
      simp only [Prod.mk.sizeOf_spec]
      omega
    simp only [PyVal.dict.sizeOf_spec]
    omega

/-! ### The per-request routine `_swagger_validate` (lines 285-324) -/

/-- The pass-through branches (`return callback(*args, **kwargs)` on lines
291, 293, 295): these sit outside the `try` block, so a raised exception
propagates to the caller. -/
def runCallback (tr : List Ev) (env : ReqEnv) (st : St) :
    List Ev × St × Except Exc PyVal :=
  match env.callback st with
  | .ok (st1, v) => (tr ++ [Ev.callbackRun], st1, .ok v)
  | .error e => (tr ++ [Ev.callbackRun], st, .error e)

/-- The `except Exception as e:` clause (lines 317-322): re-raise an
`HTTPResponse` (Bottle redirects), otherwise return the generic exception
handler's result. -/
def outerCatch (h : Handlers) (tr : List Ev) (st : St) (e : Exc) :
    List Ev × St × Except Exc PyVal :=
  match e with
  | .httpResponse s b => (tr, st, .error (.httpResponse s b))
  | e =>
    let r := h.exceptionHandler e st
    (tr ++ [Ev.ranExceptionHandler], r.1, .ok r.2)

/-- Embedding of `SwaggerPlugin._swagger_validate`
(src/bottle_swagger/__init__.py lines 285-324). Returns the event trace, the
final response state, and either the returned value or a propagated
exception. -/
def swaggerValidate (p : Plugin) (h : Handlers) (env : ReqEnv) (route : Route)
    (st : St) : List Ev × St × Except Exc PyVal :=
  let path := swaggerOpPath route.rule
  let tr := [Ev.lookupOp env.method path]
  match env.lookupOp env.method path with
  | Option.none =>
    if !strStartsWith route.rule p.swaggerBasePath || p.ignoreUndefinedRoutes then
      runCallback tr env st
    else if p.serveSwaggerSchema && route.rule == p.swaggerSchemaUrl then
      runCallback tr env st
    else if p.serveSwaggerUi && strStartsWith route.rule p.swaggerUiBaseUrl then
      runCallback tr env st
    else
      let r := h.swaggerOpNotFoundHandler route st
      (tr ++ [Ev.ranNotFoundHandler], r.1, .ok r.2)
  | some op =>
    let tr := tr ++ [Ev.setSwaggerOp]
    match env.unmarshalRequest op with
    | .error (.validationError m) =>
      let r := h.invalidRequestHandler (.validationError m) st
      (tr ++ [Ev.unmarshalReq, Ev.ranInvalidRequestHandler], r.1, .ok r.2)
    | .error e => outerCatch h (tr ++ [Ev.unmarshalReq]) st e
    | .ok _ =>
      let tr := tr ++ [Ev.unmarshalReq, Ev.setSwaggerData]
      match env.callback st with
      | .error e => outerCatch h (tr ++ [Ev.callbackRun]) st e
      | .ok (st1, result) =>
        let tr := tr ++ [Ev.callbackRun]
        match env.validateResponse op st1.status result with
        | .error (.validationError m) =>
          let r := h.invalidResponseHandler (.validationError m) st1
          (tr ++ [Ev.respValidated, Ev.ranInvalidResponseHandler], r.1, .ok r.2)
        | .error (.matchingResponseNotFound m) =>
          let r := h.invalidResponseHandler (.matchingResponseNotFound m) st1
          (tr ++ [Ev.respValidated, Ev.ranInvalidResponseHandler], r.1, .ok r.2)
        | .error e => outerCatch h (tr ++ [Ev.respValidated]) st1 e
        | .ok _ =>
          let tr := tr ++ [Ev.respValidated]
          if p.autoJsonify && isStructured result then
            (tr ++ [Ev.serialized], { st1 with contentType := "application/json" },
             .ok (.str (jsonDumps result)))
          else
            (tr, st1, .ok result)

/-! ### Construction (`SwaggerPlugin.__init__`, lines 222-256) -/

/-- The keyword arguments of `SwaggerPlugin.__init__` that are modelled
(handler overrides live in `Handlers`; bravado-only passthrough options that
the plugin merely forwards are elided). Defaults are the constructor
defaults. -/
structure InitArgs where
  validateSwaggerSpec : Bool := true
  validateRequests : Bool := true
  validateResponses : Bool := true
  ignoreUndefinedApiRoutes : Bool := false
  autoJsonify : Bool := true
  swaggerBasePath : Option String := Option.none
  adjustApiBasePath : Bool := true
  serveSwaggerSchema : Bool := true
  swaggerSchemaSuburl : String := "/swagger.json"
  serveSwaggerUi : Bool := false
  swaggerUiSuburl : String := "/ui/"

/-- Embedding of `SwaggerPlugin.__init__` (lines 222-256). `fromDict` models
the external call `Spec.from_dict(swagger_def, config=...)` (line 250): it
may raise (malformed document, or structural validation failure when that
option is enabled) and otherwise yields `urlparse(spec.api_url).path`; the
constructed `Spec` keeps the passed dict as its `spec_dict`.

Line 232 reads `self.serve_swagger_ui` on the right-hand side of
`self.serve_swagger_schema = serve_swagger_schema or self.serve_swagger_ui`
before line 233 has assigned that attribute; `or` short-circuits, so when
`serve_swagger_schema` is truthy nothing is evaluated, but when it is falsy
the attribute access raises `AttributeError` — before `Spec.from_dict` is
ever reached. -/
def mkPlugin (fromDict : Dict → Except Exc String) (swaggerDef : Dict)
    (a : InitArgs) : Except Exc Plugin :=
  let swaggerDef :=
    match a.swaggerBasePath with
    | some bp => dictUpdate swaggerDef "basePath" (.str bp)
    | Option.none => swaggerDef
  if a.serveSwaggerSchema then
    match fromDict swaggerDef with
    | .error e => .error e
    | .ok apiUrlPath =>
      let swaggerBasePath :=
        match a.swaggerBasePath with
        | some bp =>
          if bp = "" then (if apiUrlPath = "" then "/" else apiUrlPath) else bp
        | Option.none => if apiUrlPath = "" then "/" else apiUrlPath
      let fixedBasePath := rstripChar '/' swaggerBasePath ++ "/"
      .ok {
        ignoreUndefinedRoutes := a.ignoreUndefinedApiRoutes
        autoJsonify := a.autoJsonify
        serveSwaggerSchema := true
        serveSwaggerUi := a.serveSwaggerUi
        swaggerSchemaSuburl := a.swaggerSchemaSuburl
        swaggerUiSuburl := a.swaggerUiSuburl
        swaggerBasePath := swaggerBasePath
        adjustApiBasePath := a.adjustApiBasePath
        swaggerSchemaUrl :=
          urljoinPath fixedBasePath (lstripChar '/' a.swaggerSchemaSuburl)
        swaggerUiBaseUrl :=
          urljoinPath fixedBasePath (lstripChar '/' a.swaggerUiSuburl)
        specDict := swaggerDef
        validateSwaggerSpec := a.validateSwaggerSpec
        validateRequests := a.validateRequests
        validateResponses := a.validateResponses
      }
  else
    .error (.attributeError "SwaggerPlugin object has no attribute serve_swagger_ui")

/-! ### Schema and UI serving (`SwaggerPlugin.setup`, lines 264-283) -/

/-- The `(method, url)` pairs `setup` registers on the app. -/
def setupRoutes (p : Plugin) : List (String × String) :=
  (if p.serveSwaggerSchema then [("GET", p.swaggerSchemaUrl)] else []) ++
  (if p.serveSwaggerUi then
    [("GET", p.swaggerUiBaseUrl),
     ("GET", urljoinPath p.swaggerUiBaseUrl "<path:path>")]
  else [])

/-- Embedding of the `swagger_schema` endpoint body registered by `setup`
(lines 266-274). `scriptName` models `request.environ.get('SCRIPT_NAME',
'')`. The handler returns the spec dict, rewriting its `basePath` entry to
the deployment mount point when `adjust_api_base_path` is set and the entry
exists; it never touches the response state, so a fresh response keeps
Bottle's default status 200. -/
def swaggerSchemaEndpoint (p : Plugin) (scriptName : String) (st : St) :
    St × Dict :=
  let d := p.specDict
  if p.adjustApiBasePath && dictContains d "basePath" then
    let newBase :=
      urljoinPath (urljoinPath "/" (stripChar '/' scriptName ++ "/"))
        (lstripChar '/' p.swaggerBasePath)
    (st, dictUpdate d "basePath" (.str newBase))
  else
    (st, d)

/-! ### Object-level dict mutation (for the frame property of `__init__`) -/

/-- A heap of Python dict objects, addressed by allocation index. -/
abbrev Store := List Dict

/-- `dict(x)`: allocate a fresh dict whose entries are copied from the object
at `ref`; returns the new store and the fresh reference. -/
def pyDictCtor (store : Store) (ref : Nat) : Store × Nat :=
  (store ++ [store.getD ref []], store.length)

/-- `x.update(k=v)`: in-place mutation of the object at `ref`. -/
def pyDictUpdateAt (store : Store) (ref : Nat) (k : String) (v : PyVal) :
    Store :=
  store.set ref (dictUpdate (store.getD ref []) k v)

/-- Embedding of lines 222-224 of `SwaggerPlugin.__init__` at the level of
object identity: `swagger_def = dict(swagger_def)` then, if a base-path
override was supplied, `swagger_def.update(basePath=swagger_base_path)`.
Returns the resulting heap and the reference the plugin keeps using. -/
def initSwaggerDefPrep (store : Store) (swaggerDefRef : Nat)
    (basePathOverride : Option String) : Store × Nat :=
  let s1 := pyDictCtor store swaggerDefRef
  match basePathOverride with
  | some bp => (pyDictUpdateAt s1.1 s1.2 "basePath" (.str bp), s1.2)
  | Option.none => s1

/-! ### Concrete instances used by witnesses and counterexamples -/

/-- A concrete plugin configuration with base path `/api` and all defaults. -/
def pluginA : Plugin := {
  ignoreUndefinedRoutes := false
  autoJsonify := true
  serveSwaggerSchema := true
  serveSwaggerUi := false
  swaggerSchemaSuburl := "/swagger.json"
  swaggerUiSuburl := "/ui/"
  swaggerBasePath := "/api"
  adjustApiBasePath := true
  swaggerSchemaUrl := "/api/swagger.json"
  swaggerUiBaseUrl := "/api/ui/"
  specDict := [("swagger", PyVal.str "2.0"), ("basePath", PyVal.str "/api")]
  validateSwaggerSpec := true
  validateRequests := true
  validateResponses := true
}

/-- `pluginA` with undefined API routes ignored. -/
def pluginIgnore : Plugin := { pluginA with ignoreUndefinedRoutes := true }

/-- A route under the API base path of `pluginA`. -/
def routeA : Route := ⟨"/api/things"⟩

/-- A request environment whose unmarshalling fails with a validation error
(e.g. a required body field is missing). -/
def envBadRequest : ReqEnv := {
  method := "POST"
  lookupOp := fun _ _ => some 0
  unmarshalRequest := fun _ => .error (.validationError "required field missing")
  validateResponse := fun _ _ _ => .ok ()
  callback := fun st => .ok ({ st with sideEffects := st.sideEffects ++ ["handler ran"] }, PyVal.none)
}

/-- A request environment whose callback commits a side effect and returns a
payload that fails response validation. -/
def envBadResponse : ReqEnv := {
  method := "GET"
  lookupOp := fun _ _ => some 0
  unmarshalRequest := fun _ => .ok PyVal.none
  validateResponse := fun _ _ _ => .error (.validationError "response does not match schema")
  callback := fun st =>
    .ok ({ st with sideEffects := st.sideEffects ++ ["db write"] }, PyVal.dict [("x", PyVal.int 1)])
}

/-- A request environment whose callback raises a plain exception; the route
lookup finds no operation. -/
def envBoom : ReqEnv := {
  method := "GET"
  lookupOp := fun _ _ => Option.none
  unmarshalRequest := fun _ => .ok PyVal.none
  validateResponse := fun _ _ _ => .ok ()
  callback := fun _ => .error (.other "boom")
}

/-- A request environment whose callback raises Bottle's `HTTPResponse`
redirect signal; the lookup finds an operation. -/
def envRedirect : ReqEnv := {
  method := "GET"
  lookupOp := fun _ _ => some 0
  unmarshalRequest := fun _ => .ok PyVal.none
  validateResponse := fun _ _ _ => .ok ()
  callback := fun _ => .error (.httpResponse 302 "redirect")
}

/-- A request environment with a well-behaved callback returning a list. -/
def envOkList : ReqEnv := {
  method := "GET"
  lookupOp := fun _ _ => some 0
  unmarshalRequest := fun _ => .ok PyVal.none
  validateResponse := fun _ _ _ => .ok ()
  callback := fun st => .ok (st, PyVal.list [PyVal.int 1, PyVal.int 2])
}

/-- A request environment with a well-behaved callback and no matching
operation in the schema. -/
def envNoOp : ReqEnv := {
  method := "GET"
  lookupOp := fun _ _ => Option.none
  unmarshalRequest := fun _ => .ok PyVal.none
  validateResponse := fun _ _ _ => .ok ()
  callback := fun st => .ok (st, PyVal.str "ok")
}

/-- A well-formed document oracle: `Spec.from_dict` succeeds and reports api
url path `/api`. -/
def fromDictOk : Dict → Except Exc String := fun _ => .ok "/api"

/-- A schema document used in construction witnesses. -/
def docA : Dict :=
  [("swagger", PyVal.str "2.0"), ("basePath", PyVal.str "/api"),
   ("paths", PyVal.dict [])]

/-- The default handler set. -/
def handlersDefault : Handlers := {}

/-- The plugin constructed from `docA` with the constructor defaults. -/
def pluginC9 : Plugin := {
  ignoreUndefinedRoutes := false
  autoJsonify := true
  serveSwaggerSchema := true
  serveSwaggerUi := false
  swaggerSchemaSuburl := "/swagger.json"
  swaggerUiSuburl := "/ui/"
  swaggerBasePath := "/api"
  adjustApiBasePath := true
  swaggerSchemaUrl := "/api/swagger.json"
  swaggerUiBaseUrl := "/api/ui/"
  specDict := docA
  validateSwaggerSpec := true
  validateRequests := true
  validateResponses := true
}

/-! ### Helper lemmas -/

theorem dictGet?_dictUpdate_self (d : Dict) (k : String) (v : PyVal) :
    dictGet? (dictUpdate d k v) k = some v := by
  induction d with
  | nil => simp [dictUpdate, dictGet?]
  | cons kv rest ih =>
    obtain ⟨k1, v1⟩ := kv
    by_cases hk : k1 = k <;> simp [dictUpdate, dictGet?, hk, ih]

theorem dictGet?_dictUpdate_ne (d : Dict) (k k1 : String) (v : PyVal)
    (h : k1 ≠ k) : dictGet? (dictUpdate d k v) k1 = dictGet? d k1 := by
  induction d with
  | nil => simp [dictUpdate, dictGet?, Ne.symm h]
  | cons kv rest ih =>
    obtain ⟨k2, v2⟩ := kv
    by_cases hk : k2 = k
    · subst hk
      simp [dictUpdate, dictGet?, Ne.symm h]
    · simp [dictUpdate, dictGet?, hk, ih]

theorem upToLastSlash_append_slash (l : List Char) :
    upToLastSlash (l ++ ['/']) = l ++ ['/'] := by
  induction l with
  | nil => simp [upToLastSlash]
  | cons c rest ih =>
    have hmem : '/' ∈ rest ++ ['/'] := by simp
    simp [upToLastSlash, hmem, ih]

theorem string_data_append (a b : String) : (a ++ b).data = a.data ++ b.data := by
  cases a
  cases b
  rfl

theorem string_append_assoc (a b c : String) : a ++ b ++ c = a ++ (b ++ c) := by
  cases a
  cases b
  cases c
  show String.mk _ = String.mk _
  rw [List.append_assoc]

theorem urljoinPath_append_slash (x rel : String)
    (h : strStartsWith rel "/" = false) :
    urljoinPath (x ++ "/") rel = x ++ "/" ++ rel := by
  rw [urljoinPath, h]
  simp only [Bool.false_eq_true, if_false]
  have hd : (x ++ "/").data = x.data ++ ['/'] := by
    rw [string_data_append]
  rw [hd, upToLastSlash_append_slash]
  cases x
  rfl

/-! ### Claim theorems -/

/-- Claim C1: for every intercepted request whose route resolves to a Swagger
operation and whose incoming data fails request validation (unmarshalling
raises a `ValidationError`), `_swagger_validate` returns the result of the
invalid-request handler — with the default handler, status 400 and body
`\x7b"code": 400, "message": <validation error text>\x7d` — and the
downstream callback is never invoked (no `callbackRun` event in the trace). -/
theorem c1_invalid_request_short_circuits
    (p : Plugin) (h : Handlers) (env : ReqEnv) (route : Route) (st : St)
    (op : Nat) (m : String)
    (hh : h.invalidRequestHandler = default_bad_request_handler)
    (hop : env.lookupOp env.method (swaggerOpPath route.rule) = some op)
    (hum : env.unmarshalRequest op = .error (.validationError m)) :
    swaggerValidate p h env route st =
      ([Ev.lookupOp env.method (swaggerOpPath route.rule), Ev.setSwaggerOp,
        Ev.unmarshalReq, Ev.ranInvalidRequestHandler],
       { st with status := 400 },
       Except.ok (PyVal.dict [("code", PyVal.int 400), ("message", PyVal.str m)])) ∧
    Ev.callbackRun ∉ (swaggerValidate p h env route st).1 := by
  have key : swaggerValidate p h env route st =
      ([Ev.lookupOp env.method (swaggerOpPath route.rule), Ev.setSwaggerOp,
        Ev.unmarshalReq, Ev.ranInvalidRequestHandler],
       { st with status := 400 },
       Except.ok (PyVal.dict [("code", PyVal.int 400), ("message", PyVal.str m)])) := by
    simp [swaggerValidate, hop, hum, hh, default_bad_request_handler,
      errorResponse, excStr]
  refine ⟨key, ?_⟩
  rw [key]
  simp

/-- Witness for C1 at a concrete configuration: default handlers, a matched
operation, and unmarshalling failing with message "required field missing". -/
theorem c1_witness :
    envBadRequest.lookupOp envBadRequest.method (swaggerOpPath routeA.rule) = some 0 ∧
    handlersDefault.invalidRequestHandler = default_bad_request_handler ∧
    swaggerValidate pluginA handlersDefault envBadRequest routeA St0 =
      ([Ev.lookupOp "POST" "/api/things", Ev.setSwaggerOp, Ev.unmarshalReq,
        Ev.ranInvalidRequestHandler],
       { St0 with status := 400 },
       Except.ok (PyVal.dict [("code", PyVal.int 400),
         ("message", PyVal.str "required field missing")])) :=
  ⟨rfl, rfl,
    (c1_invalid_request_short_circuits pluginA handlersDefault envBadRequest
      routeA St0 0 "required field missing" rfl rfl rfl).1⟩

/-- Claim C2: for a matched operation the downstream callback runs before
response validation (the trace orders `callbackRun` before `respValidated`);
when validating the callback's payload against the response schema for the
status code it set fails (`ValidationError`) or no response schema exists for
that status code (`MatchingResponseNotFound`), `_swagger_validate` returns
the invalid-response handler's result — with the default handler, status 500
and body `\x7b"code": 500, "message": <error text>\x7d` — in place of the
callback's result, and the side effects the callback already committed are
kept. -/
theorem c2_invalid_response_after_handler
    (p : Plugin) (h : Handlers) (env : ReqEnv) (route : Route) (st : St)
    (op : Nat) (d : PyVal) (st1 : St) (r : PyVal) (e : Exc) (m : String)
    (hh : h.invalidResponseHandler = default_server_error_handler)
    (hop : env.lookupOp env.method (swaggerOpPath route.rule) = some op)
    (hum : env.unmarshalRequest op = .ok d)
    (hcb : env.callback st = .ok (st1, r))
    (hvr : env.validateResponse op st1.status r = .error e)
    (he : e = Exc.validationError m ∨ e = Exc.matchingResponseNotFound m) :
    swaggerValidate p h env route st =
      ([Ev.lookupOp env.method (swaggerOpPath route.rule), Ev.setSwaggerOp,
        Ev.unmarshalReq, Ev.setSwaggerData, Ev.callbackRun, Ev.respValidated,
        Ev.ranInvalidResponseHandler],
       { st1 with status := 500 },
       Except.ok (PyVal.dict [("code", PyVal.int 500), ("message", PyVal.str m)])) ∧
    (swaggerValidate p h env route st).2.1.sideEffects = st1.sideEffects := by
  rcases he with rfl | rfl <;>
  · have key : swaggerValidate p h env route st =
        ([Ev.lookupOp env.method (swaggerOpPath route.rule), Ev.setSwaggerOp,
          Ev.unmarshalReq, Ev.setSwaggerData, Ev.callbackRun, Ev.respValidated,
          Ev.ranInvalidResponseHandler],
         { st1 with status := 500 },
         Except.ok (PyVal.dict [("code", PyVal.int 500), ("message", PyVal.str m)])) := by
      simp [swaggerValidate, hop, hum, hcb, hvr, hh,
        default_server_error_handler, errorResponse, excStr]
    exact ⟨key, by rw [key]⟩

/-- Witness for C2 at a concrete configuration: the callback commits the side
effect "db write" and returns a payload failing response validation; the
result is the default 500 payload and the side effect is kept. -/
theorem c2_witness :
    envBadResponse.callback St0 =
      Except.ok ({ St0 with sideEffects := ["db write"] },
        PyVal.dict [("x", PyVal.int 1)]) ∧
    swaggerValidate pluginA handlersDefault envBadResponse routeA St0 =
      ([Ev.lookupOp "GET" "/api/things", Ev.setSwaggerOp, Ev.unmarshalReq,
        Ev.setSwaggerData, Ev.callbackRun, Ev.respValidated,
        Ev.ranInvalidResponseHandler],
       { St0 with status := 500, sideEffects := ["db write"] },
       Except.ok (PyVal.dict [("code", PyVal.int 500),
         ("message", PyVal.str "response does not match schema")])) :=
  ⟨rfl,
    (c2_invalid_response_after_handler pluginA handlersDefault envBadResponse
      routeA St0 0 PyVal.none { St0 with sideEffects := ["db write"] }
      (PyVal.dict [("x", PyVal.int 1)])
      (Exc.validationError "response does not match schema")
      "response does not match schema" rfl rfl rfl rfl rfl (Or.inl rfl)).1⟩

/-- Claim C4: evaluation of the path-pattern translation of
`SwaggerPlugin._swagger_op`. The single-placeholder cases behave as the
claim states, but on `/foo/<a:int>/bar/<b>` — a rule with a typed
placeholder followed by another placeholder — the regex swallows the literal
segment `/bar` and the second placeholder, producing `/foo/\x7ba\x7d` instead
of `/foo/\x7ba\x7d/bar/\x7bb\x7d`; the claim's "leaves every literal segment
unchanged, including rules with multiple placeholders and type modifiers"
fails on the code. -/
theorem c4_path_translation_eval :
    swaggerOpPath "/things/<thing_id>" = "/things/{thing_id}" ∧
    swaggerOpPath "/<id>" = "/{id}" ∧
    swaggerOpPath "/<id:int>" = "/{id}" ∧
    swaggerOpPath "/a/<x>/b/<y>" = "/a/{x}/b/{y}" ∧
    swaggerOpPath "/foo/<a:int>/bar/<b>" = "/foo/{a}" ∧
    "/foo/{a}" ≠ "/foo/{a}/bar/{b}" := by
  refine ⟨?_, ?_, ?_, ?_, ?_, ?_⟩ <;> decide

/-- Counterexample to claim C5 as stated: for the concrete route
`/elsewhere`, whose rule does not begin with the configured base path
`/api`, the intercept routine still performs the schema lookup — line 286
calls `_swagger_op` before the base-path test on line 290 — as the
`lookupOp` event in the trace records; "performs no schema lookup at all"
is false. -/
theorem c5_counterexample_lookup_attempted :
    strStartsWith "/elsewhere" pluginA.swaggerBasePath = false ∧
    (swaggerValidate pluginA handlersDefault envNoOp ⟨"/elsewhere"⟩ St0).1 =
      [Ev.lookupOp "GET" "/elsewhere", Ev.callbackRun] :=
  ⟨rfl, rfl⟩

/-- Claim C5 as amended: the schema lookup is performed first; for every
route whose rule does not begin with the configured base path and for which
that lookup finds no operation, the request is delegated directly to the
next handler, with no validation and no error handler invoked (the trace
holds only the lookup and the callback events). -/
theorem c5_out_of_base_path_delegates
    (p : Plugin) (h : Handlers) (env : ReqEnv) (route : Route) (st : St)
    (hbp : strStartsWith route.rule p.swaggerBasePath = false)
    (hop : env.lookupOp env.method (swaggerOpPath route.rule) = Option.none) :
    swaggerValidate p h env route st =
      runCallback [Ev.lookupOp env.method (swaggerOpPath route.rule)] env st ∧
    ∀ ev ∈ (swaggerValidate p h env route st).1,
      ev = Ev.lookupOp env.method (swaggerOpPath route.rule) ∨
      ev = Ev.callbackRun := by
  have key : swaggerValidate p h env route st =
      runCallback [Ev.lookupOp env.method (swaggerOpPath route.rule)] env st := by
    simp [swaggerValidate, hop, hbp]
  refine ⟨key, ?_⟩
  rw [key]
  unfold runCallback
  rcases env.callback st with e | ⟨st1, v⟩ <;> simp

/-- Witness for C5's amended statement at a concrete out-of-base-path
route. -/
theorem c5_witness :
    strStartsWith "/other" pluginA.swaggerBasePath = false ∧
    envNoOp.lookupOp "GET" "/other" = Option.none ∧
    swaggerValidate pluginA handlersDefault envNoOp ⟨"/other"⟩ St0 =
      runCallback [Ev.lookupOp "GET" "/other"] envNoOp St0 :=
  ⟨rfl, rfl,
    (c5_out_of_base_path_delegates pluginA handlersDefault envNoOp ⟨"/other"⟩
      St0 rfl rfl).1⟩

/-- Claim C6: with `ignore_undefined_api_routes` set, every request whose
(method, translated path) has no operation in the schema is forwarded to its
route callback with no validation performed and none of the four error
handlers invoked, and the callback's result is returned as-is (the
serialization step on lines 314-316 is not reached on this branch). -/
theorem c6_ignore_undefined_passthrough
    (p : Plugin) (h : Handlers) (env : ReqEnv) (route : Route) (st : St)
    (st1 : St) (v : PyVal)
    (hig : p.ignoreUndefinedRoutes = true)
    (hop : env.lookupOp env.method (swaggerOpPath route.rule) = Option.none)
    (hcb : env.callback st = .ok (st1, v)) :
    swaggerValidate p h env route st =
      ([Ev.lookupOp env.method (swaggerOpPath route.rule), Ev.callbackRun],
       st1, Except.ok v) := by
  simp [swaggerValidate, hop, hig, runCallback, hcb]

/-- Witness for C6 at a concrete configuration: `pluginIgnore` ignores
undefined routes; the request to the undeclared path `/api/undeclared` is
forwarded and its result `"ok"` returned untouched. -/
theorem c6_witness :
    pluginIgnore.ignoreUndefinedRoutes = true ∧
    envNoOp.lookupOp "GET" "/api/undeclared" = Option.none ∧
    swaggerValidate pluginIgnore handlersDefault envNoOp ⟨"/api/undeclared"⟩ St0 =
      ([Ev.lookupOp "GET" "/api/undeclared", Ev.callbackRun], St0,
       Except.ok (PyVal.str "ok")) :=
  ⟨rfl, rfl,
    c6_ignore_undefined_passthrough pluginIgnore handlersDefault envNoOp
      ⟨"/api/undeclared"⟩ St0 St0 (PyVal.str "ok") rfl rfl rfl⟩

/-- Claim C7, the code bug: line 232 of `__init__`
(`self.serve_swagger_schema = serve_swagger_schema or self.serve_swagger_ui`)
reads `self.serve_swagger_ui` before line 233 assigns it, so for EVERY
document and every oracle for `Spec.from_dict` — in particular well-formed
documents — construction with `serve_swagger_schema=False` raises
`AttributeError` instead of succeeding, contradicting "otherwise succeeds
for every combination of the serve-schema and serve-UI boolean toggles". -/
theorem c7_construction_raises_attribute_error
    (fromDict : Dict → Except Exc String) (doc : Dict) (a : InitArgs) :
    mkPlugin fromDict doc { a with serveSwaggerSchema := false } =
      Except.error
        (Exc.attributeError "SwaggerPlugin object has no attribute serve_swagger_ui") := by
  simp [mkPlugin]

/-- Counterexample to claim C3 as stated: the `try` block of
`_swagger_validate` begins on line 299, AFTER operation resolution and the
unmatched-route handling — so an exception raised by the pass-through
callback of step 2 (here the concrete plain exception "boom", raised while
handling the unmatched route `/elsewhere`) escapes the intercept routine
uncaught instead of being converted by the generic exception handler. -/
theorem c3_counterexample_escape :
    (swaggerValidate pluginA handlersDefault envBoom ⟨"/elsewhere"⟩ St0).2.2 =
      Except.error (Exc.other "boom") :=
  rfl

/-- Claim C3 as amended: for a request whose route resolves to a Swagger
operation — so that execution enters the `try` block covering request
validation, callback invocation, response validation and serialization — no
exception other than Bottle's `HTTPResponse` signal ever escapes
`_swagger_validate`, and an `HTTPResponse` raised by the callback propagates
unmodified. Exceptions raised during operation resolution or unmatched-route
handling (steps 1-2, outside the `try` block) are not covered. -/
theorem c3_matched_op_exception_policy
    (p : Plugin) (h : Handlers) (env : ReqEnv) (route : Route) (st : St)
    (op : Nat)
    (hop : env.lookupOp env.method (swaggerOpPath route.rule) = some op) :
    (∀ e, (swaggerValidate p h env route st).2.2 = Except.error e →
      ∃ s b, e = Exc.httpResponse s b) ∧
    (∀ d s b, env.unmarshalRequest op = .ok d →
      env.callback st = .error (.httpResponse s b) →
      (swaggerValidate p h env route st).2.2 =
        Except.error (Exc.httpResponse s b)) := by
  constructor
  · intro e he
    simp only [swaggerValidate, hop] at he
    rcases h1 : env.unmarshalRequest op with e1 | d <;> simp only [h1] at he
    · rcases e1 with m | m | ⟨s, b⟩ | m | m <;> simp [outerCatch] at he
      exact ⟨s, b, he.symm⟩
    · rcases h2 : env.callback st with e2 | ⟨st1, r⟩ <;> simp only [h2] at he
      · rcases e2 with m | m | ⟨s, b⟩ | m | m <;> simp [outerCatch] at he
        exact ⟨s, b, he.symm⟩
      · rcases h3 : env.validateResponse op st1.status r with e3 | u <;>
          simp only [h3] at he
        · rcases e3 with m | m | ⟨s, b⟩ | m | m <;> simp [outerCatch] at he
          exact ⟨s, b, he.symm⟩
        · split at he <;> simp at he
  · intro d s b hum hcb
    simp [swaggerValidate, hop, hum, hcb, outerCatch]

/-- Witness for C3's amended statement: a callback raising the redirect
signal `HTTPResponse 302` under a matched operation propagates it
unmodified. -/
theorem c3_witness :
    envRedirect.lookupOp envRedirect.method (swaggerOpPath routeA.rule) = some 0 ∧
    envRedirect.callback St0 = Except.error (Exc.httpResponse 302 "redirect") ∧
    (swaggerValidate pluginA handlersDefault envRedirect routeA St0).2.2 =
      Except.error (Exc.httpResponse 302 "redirect") :=
  ⟨rfl, rfl,
    (c3_matched_op_exception_policy pluginA handlersDefault envRedirect routeA
      St0 0 rfl).2 PyVal.none 302 "redirect" rfl rfl⟩

/-- Claim C8: for a matched operation whose request unmarshals, whose
callback returns, and whose payload passes response validation: when
`auto_jsonify` is on and the payload is a dict or a list, the routine
returns the JSON serialization of the payload as text and sets the response
content type to `application/json`; for any other payload, or with
`auto_jsonify` off, the callback's return value is passed through
unchanged. -/
theorem c8_auto_jsonify
    (p : Plugin) (h : Handlers) (env : ReqEnv) (route : Route) (st : St)
    (op : Nat) (d : PyVal) (st1 : St) (r : PyVal)
    (hop : env.lookupOp env.method (swaggerOpPath route.rule) = some op)
    (hum : env.unmarshalRequest op = .ok d)
    (hcb : env.callback st = .ok (st1, r))
    (hvr : env.validateResponse op st1.status r = .ok ()) :
    swaggerValidate p h env route st =
      (if p.autoJsonify && isStructured r then
        ([Ev.lookupOp env.method (swaggerOpPath route.rule), Ev.setSwaggerOp,
          Ev.unmarshalReq, Ev.setSwaggerData, Ev.callbackRun, Ev.respValidated,
          Ev.serialized],
         { st1 with contentType := "application/json" },
         Except.ok (PyVal.str (jsonDumps r)))
      else
        ([Ev.lookupOp env.method (swaggerOpPath route.rule), Ev.setSwaggerOp,
          Ev.unmarshalReq, Ev.setSwaggerData, Ev.callbackRun, Ev.respValidated],
         st1, Except.ok r)) := by
  by_cases hj : p.autoJsonify && isStructured r <;>
    simp [swaggerValidate, hop, hum, hcb, hvr, hj]

/-- Witness for C8 at a concrete configuration: `auto_jsonify` is on and the
callback returns the list `[1, 2]`; the result is the serialized list as a
string with content type `application/json`. -/
theorem c8_witness :
    pluginA.autoJsonify = true ∧
    envOkList.callback St0 =
      Except.ok (St0, PyVal.list [PyVal.int 1, PyVal.int 2]) ∧
    (swaggerValidate pluginA handlersDefault envOkList routeA St0).2.1.contentType =
      "application/json" ∧
    (swaggerValidate pluginA handlersDefault envOkList routeA St0).2.2 =
      Except.ok (PyVal.str (jsonDumps (PyVal.list [PyVal.int 1, PyVal.int 2]))) := by
  have key := c8_auto_jsonify pluginA handlersDefault envOkList routeA St0 0
    PyVal.none St0 (PyVal.list [PyVal.int 1, PyVal.int 2]) rfl rfl rfl rfl
  have key2 : swaggerValidate pluginA handlersDefault envOkList routeA St0 =
      ([Ev.lookupOp envOkList.method (swaggerOpPath routeA.rule),
        Ev.setSwaggerOp, Ev.unmarshalReq, Ev.setSwaggerData, Ev.callbackRun,
        Ev.respValidated, Ev.serialized],
       { St0 with contentType := "application/json" },
       Except.ok (PyVal.str (jsonDumps (PyVal.list [PyVal.int 1, PyVal.int 2])))) :=
    key.trans (by rfl)
  exact ⟨rfl, rfl, by rw [key2], by rw [key2]⟩

theorem schemaUrl_default (BP : String) :
    urljoinPath (rstripChar '/' BP ++ "/") (lstripChar '/' "/swagger.json") =
      rstripChar '/' BP ++ "/swagger.json" := by
  rw [show lstripChar '/' "/swagger.json" = "swagger.json" from rfl,
    urljoinPath_append_slash (rstripChar '/' BP) "swagger.json" rfl,
    string_append_assoc]
  rfl

theorem swaggerSchemaEndpoint_state (p : Plugin) (sn : String) (st : St) :
    (swaggerSchemaEndpoint p sn st).1 = st := by
  simp only [swaggerSchemaEndpoint]
  split <;> rfl

theorem swaggerSchemaEndpoint_get_ne (p : Plugin) (sn : String) (st : St)
    (k : String) (hk : k ≠ "basePath") :
    dictGet? (swaggerSchemaEndpoint p sn st).2 k = dictGet? p.specDict k := by
  simp only [swaggerSchemaEndpoint]
  split
  · exact dictGet?_dictUpdate_ne _ _ _ _ hk
  · rfl

theorem swaggerSchemaEndpoint_no_adjust (p : Plugin)
    (hadj : p.adjustApiBasePath = false) (sn : String) (st : St) :
    (swaggerSchemaEndpoint p sn st).2 = p.specDict := by
  simp [swaggerSchemaEndpoint, hadj]

/-- Claim C9: when schema serving is enabled, construction registers a GET
endpoint at the join of the configured base path and the schema sub-path
(`<basePath>/swagger.json` with the default sub-path); the endpoint's handler
returns the schema document (all keys other than `basePath` exactly as held,
and with `adjust_api_base_path` off the document exactly as held) without
touching the response state, whose fresh default status is 200; and nothing
the endpoint registers or returns depends on `validate_requests` or
`validate_responses`. -/
theorem c9_schema_endpoint
    (fromDict : Dict → Except Exc String) (doc : Dict) (a : InitArgs)
    (p p1 : Plugin) (b1 b2 : Bool)
    (hmk : mkPlugin fromDict doc a = .ok p)
    (hmk1 : mkPlugin fromDict doc
      { a with validateRequests := b1, validateResponses := b2 } = .ok p1) :
    ("GET", p.swaggerSchemaUrl) ∈ setupRoutes p ∧
    (a.swaggerSchemaSuburl = "/swagger.json" →
      p.swaggerSchemaUrl = rstripChar '/' p.swaggerBasePath ++ "/swagger.json") ∧
    (∀ sn st, (swaggerSchemaEndpoint p sn st).1 = st) ∧
    St0.status = 200 ∧
    (∀ sn st k, k ≠ "basePath" →
      dictGet? (swaggerSchemaEndpoint p sn st).2 k = dictGet? p.specDict k) ∧
    (p.adjustApiBasePath = false →
      ∀ sn st, (swaggerSchemaEndpoint p sn st).2 = p.specDict) ∧
    p1.swaggerSchemaUrl = p.swaggerSchemaUrl ∧
    setupRoutes p1 = setupRoutes p := by
  cases hs : a.serveSwaggerSchema
  · simp [mkPlugin, hs] at hmk
  · rcases hbp : a.swaggerBasePath with _ | bp
    · rcases hfd : fromDict doc with e | api
      · simp [mkPlugin, hs, hbp, hfd] at hmk
      · simp only [mkPlugin, hs, hbp, hfd, if_true, Except.ok.injEq] at hmk hmk1
        subst hmk
        subst hmk1
        refine ⟨?_, ?_, ?_, rfl, ?_, ?_, rfl, rfl⟩
        · simp [setupRoutes]
        · intro hsub
          simp only [hsub]
          exact schemaUrl_default _
        · intro sn st
          exact swaggerSchemaEndpoint_state _ sn st
        · intro sn st k hk
          exact swaggerSchemaEndpoint_get_ne _ sn st k hk
        · intro hadj sn st
          exact swaggerSchemaEndpoint_no_adjust _ hadj sn st
    · rcases hfd : fromDict (dictUpdate doc "basePath" (PyVal.str bp)) with e | api
      · simp [mkPlugin, hs, hbp, hfd] at hmk
      · simp only [mkPlugin, hs, hbp, hfd, if_true, Except.ok.injEq] at hmk hmk1
        subst hmk
        subst hmk1
        refine ⟨?_, ?_, ?_, rfl, ?_, ?_, rfl, rfl⟩
        · simp [setupRoutes]
        · intro hsub
          simp only [hsub]
          exact schemaUrl_default _
        · intro sn st
          exact swaggerSchemaEndpoint_state _ sn st
        · intro sn st k hk
          exact swaggerSchemaEndpoint_get_ne _ sn st k hk
        · intro hadj sn st
          exact swaggerSchemaEndpoint_no_adjust _ hadj sn st

/-- Witness for C9: constructing from the concrete well-formed document
`docA` with the constructor defaults yields `pluginC9`, whose schema endpoint
is registered at `/api/swagger.json`. -/
theorem c9_witness :
    mkPlugin fromDictOk docA {} = Except.ok pluginC9 ∧
    pluginC9.swaggerSchemaUrl = "/api/swagger.json" ∧
    ("GET", pluginC9.swaggerSchemaUrl) ∈ setupRoutes pluginC9 := by
  refine ⟨rfl, rfl, ?_⟩
  exact (c9_schema_endpoint fromDictOk docA {} pluginC9
    { pluginC9 with validateRequests := false, validateResponses := false }
    false false rfl rfl).1

/-- Claim C10: lines 222-224 of `__init__` copy the caller's schema-document
dict (`swagger_def = dict(swagger_def)`) before applying the base-path
override, so the caller's original dict object is left unchanged at its top
level: the override writes `basePath` only into the freshly allocated copy,
never into the object the caller passed. -/
theorem c10_caller_dict_unchanged (store : Store) (ref : Nat)
    (bp : Option String) (h : ref < store.length) :
    (initSwaggerDefPrep store ref bp).1.getD ref [] = store.getD ref [] ∧
    (initSwaggerDefPrep store ref bp).2 ≠ ref ∧
    ∀ s, bp = some s →
      dictGet? ((initSwaggerDefPrep store ref bp).1.getD
        (initSwaggerDefPrep store ref bp).2 []) "basePath" =
          some (PyVal.str s) := by
  rcases bp with _ | s
  · refine ⟨?_, ?_, ?_⟩
    · simp only [initSwaggerDefPrep, pyDictCtor]
      exact List.getD_append _ _ _ _ h
    · simp only [initSwaggerDefPrep, pyDictCtor]
      omega
    · intro s hs
      cases hs
  · refine ⟨?_, ?_, ?_⟩
    · simp only [initSwaggerDefPrep, pyDictCtor, pyDictUpdateAt]
      rw [List.getD_eq_getElem?_getD, List.getElem?_set_ne (by omega),
        ← List.getD_eq_getElem?_getD]
      exact List.getD_append _ _ _ _ h
    · simp only [initSwaggerDefPrep, pyDictCtor, pyDictUpdateAt]
      omega
    · intro s1 hs
      cases hs
      simp only [initSwaggerDefPrep, pyDictCtor, pyDictUpdateAt]
      rw [List.getD_eq_getElem?_getD,
        List.getElem?_set_eq_of_lt _ (by simp)]
      simp only [Option.getD_some]
      exact dictGet?_dictUpdate_self _ _ _

/-- Witness for C10: a concrete one-object heap; construction with a
base-path override leaves the caller's dict at reference 0 unchanged. -/
theorem c10_witness :
    0 < ([[("swagger", PyVal.str "2.0")]] : Store).length ∧
    (initSwaggerDefPrep [[("swagger", PyVal.str "2.0")]] 0 (some "/v2")).1.getD 0 [] =
      [("swagger", PyVal.str "2.0")] := by
  refine ⟨by decide, ?_⟩
  exact (c10_caller_dict_unchanged [[("swagger", PyVal.str "2.0")]] 0
    (some "/v2") (by decide)).1

end BottleSwagger
